import Mathlib

/-!
Shallow embedding of the docspace front-end scripts
(`frontend/src/landing.js`, `frontend/src/chat.js`,
`frontend/src/UpdatedFiles/scripts/login-signup.js`,
`frontend/src/UpdatedFiles/scripts/documentView.js` /
`documentIdea.js`) and proofs about their handlers.

Each page's DOM state is a structure; each event handler is a state
transition.  An asynchronous handler is split at its `await` points into
a synchronous start phase (which may issue a network request) and a
settle phase parameterised by the outcome of that request.  Strings use
Lean `String`, with the JavaScript primitives (`toLowerCase`,
`endsWith`, `trim`, truthiness of strings) re-implemented over the
underlying character list so that all definitions evaluate by kernel
reduction.
-/

namespace DocSpace

/-- Character list `s` ends with character list `p`. Models
`String.prototype.endsWith` on the code points of the two strings. -/
def endsWithL (s p : List Char) : Bool :=
  (s.reverse.take p.length) == p.reverse

/-- `s.endsWith(p)` of JavaScript. -/
def jsEndsWith (s p : String) : Bool :=
  endsWithL s.data p.data

/-- `s.toLowerCase()` of JavaScript, on the ASCII range (all extension
patterns in the source are ASCII). -/
def jsToLower (s : String) : String :=
  ⟨s.data.map Char.toLower⟩

/-- `s.trim()` of JavaScript: strip leading and trailing whitespace. -/
def jsTrim (s : String) : String :=
  ⟨((s.data.dropWhile Char.isWhitespace).reverse.dropWhile Char.isWhitespace).reverse⟩

/-- JavaScript `v || fallback` for a possibly-absent string value `v`:
the empty string, like an absent (`undefined`/`null`) field, is falsy. -/
def jsOrElse (v : Option String) (fallback : String) : String :=
  match v with
  | some s => if s = "" then fallback else s
  | none => fallback

/-- JavaScript `a || b` where both sides are possibly-absent string
values (used for `data.detail || data.message`). -/
def jsOrElseOpt (a b : Option String) : Option String :=
  match a with
  | some s => if s = "" then b else a
  | none => b

/-- A parsed JSON object, restricted to its string-valued fields (the
only fields any script in the repository reads). -/
abbrev JsObj := List (String × String)

/-! ## Landing page (`landing.js`): file upload queue -/

/-- A file handle as the upload page sees it: a name and a byte size. -/
structure FileH where
  name : String
  size : Nat
deriving DecidableEq

/-- Contents of the status box: `setStatus(title, message)` writes
`<strong>` title `</strong>` followed by the message. -/
structure StatusBox where
  title : String
  message : String
deriving DecidableEq

/-- The rendered `#file-list` element, modelled structurally: either the
placeholder `<em>No files selected yet.</em>` or one row per queued file
(the per-row text, name plus size in KB, is presentational and not
modelled further). -/
inductive FileListView where
  | emptyPlaceholder
  | rows (items : List FileH)
deriving DecidableEq

/-- DOM state of the landing page: the module-level `files` array, the
rendered list, the `disabled` properties of the ingest and clear
buttons, and the status box. -/
structure LandingState where
  files : List FileH
  fileListView : FileListView
  ingestDisabled : Bool
  clearDisabled : Bool
  status : StatusBox
deriving DecidableEq

/-- The `allowed` extension list of `addFiles`. -/
def allowedExts : List String := [".md", ".markdown", ".txt", ".rst"]

/-- The filter predicate of `addFiles`:
`allowed.some((ext) => file.name.toLowerCase().endsWith(ext))`. -/
def isAllowedFile (f : FileH) : Bool :=
  allowedExts.any (fun ext => jsEndsWith (jsToLower f.name) ext)

/-- `setStatus(title, message)` of `landing.js`. -/
def setStatusL (st : LandingState) (t m : String) : LandingState :=
  { st with status := ⟨t, m⟩ }

/-- `refreshList()` of `landing.js`: rebuilds the file list view and
sets both buttons' `disabled` property from emptiness of `files`. -/
def refreshList (st : LandingState) : LandingState :=
  if st.files.isEmpty then
    { st with fileListView := .emptyPlaceholder, ingestDisabled := true, clearDisabled := true }
  else
    { st with fileListView := .rows st.files, ingestDisabled := false, clearDisabled := false }

/-- `addFiles(incoming)` of `landing.js`: filter the candidates by
`isAllowedFile`; if none survive, report a rejection status and stop;
otherwise append the survivors, rebuild the list and report a count. -/
def addFiles (st : LandingState) (incoming : List FileH) : LandingState :=
  let added := incoming.filter isAllowedFile
  if added.isEmpty then
    setStatusL st "No supported files" "Please upload .md, .markdown, .txt, or .rst files."
  else
    let st1 := refreshList { st with files := st.files ++ added }
    setStatusL st1 "Ready" (toString st1.files.length ++ " file(s) queued for ingestion.")

/-- The clear button handler of `landing.js`: empty the queue, rebuild
the list, report the cleared status. -/
def clearClick (st : LandingState) : LandingState :=
  setStatusL (refreshList { st with files := [] }) "Cleared"
    "Waiting for files. Files will be uploaded to <code>/api/ingest</code>."

/-- The multipart POST to `/api/ingest`: one `files` field per queued
file, in queue order. -/
structure IngestRequest where
  files : List FileH
deriving DecidableEq

/-- Synchronous prefix of the ingest click handler, up to the `await
fetch`: a no-op issuing no request when the queue is empty, otherwise
it disables the ingest button, shows the uploading status and issues
one request carrying the whole queue. -/
def ingestClickStart (st : LandingState) : LandingState × Option IngestRequest :=
  if st.files.isEmpty then (st, none)
  else
    (setStatusL { st with ingestDisabled := true } "Uploading"
       "Sending files to the ingestion pipeline...", some ⟨st.files⟩)

/-- The DOM does not deliver click events to a button whose `disabled`
property is set; this wraps the ingest handler behind that gate. -/
def ingestClickIfEnabled (st : LandingState) : LandingState × Option IngestRequest :=
  if st.ingestDisabled then (st, none) else ingestClickStart st

/-- Outcome of the `/api/ingest` request as the handler observes it:
an HTTP success together with the parsed JSON body (the `.catch` on
`response.json()` turns a parse failure into the empty object), a
non-2xx status together with the response body text, or a rejected
fetch carrying an error message. -/
inductive IngestOutcome where
  | success (payload : JsObj)
  | httpError (body : String)
  | networkError (message : String)
deriving DecidableEq

/-- Whether the outcome takes the handler into its `catch` block. -/
def IngestOutcome.isFailure : IngestOutcome → Bool
  | .success _ => false
  | .httpError _ => true
  | .networkError _ => true

/-- The `catch` block of the ingest handler: show the error status and
re-enable the ingest button. -/
def ingestCatch (st : LandingState) (msg : String) : LandingState :=
  { setStatusL st "Upload failed"
      ("Error: " ++ msg ++ ". Verify the ingestion endpoint is running.") with
    ingestDisabled := false }

/-- Settle phase of the ingest click handler, resuming after the
`await`s with the request outcome. On success: clear the queue, rebuild
the list, show the pipeline message (or a generic acceptance message
when the `message` field is falsy). On a non-2xx status the handler
throws `errorText || "Ingestion failed"` into its own catch; on a
rejected fetch the rejection reason reaches the catch directly. -/
def ingestSettle (st : LandingState) (o : IngestOutcome) : LandingState :=
  match o with
  | .success payload =>
      setStatusL (refreshList { st with files := [] }) "Ingestion started"
        (match List.lookup "message" payload with
         | some m =>
             if m = "" then "Files accepted. Check pipeline logs for progress."
             else "Pipeline response: " ++ m
         | none => "Files accepted. Check pipeline logs for progress.")
  | .httpError body => ingestCatch st (jsOrElse (some body) "Ingestion failed")
  | .networkError m => ingestCatch st m

/-- The whole ingest click handler: the start phase followed, when a
request was issued, by the settle phase on the request's outcome. -/
def ingestClick (st : LandingState) (o : IngestOutcome) : LandingState :=
  match ingestClickStart st with
  | (st1, none) => st1
  | (st1, some _) => ingestSettle st1 o

/-! ## Chat page (`chat.js`): composer -/

/-- Role class of a transcript bubble. -/
inductive Role where
  | user
  | assistant
  | system
deriving DecidableEq

/-- One rendered message: bubble text and role class. -/
structure ChatMsg where
  text : String
  role : Role
deriving DecidableEq

/-- DOM state of the chat page: the `#messages` transcript, the status
pill (text plus ok/error background), the prompt input value, and the
`disabled` property of the send control — which no statement in
`chat.js` ever writes. -/
structure ChatState where
  transcript : List ChatMsg
  statusText : String
  statusOk : Bool
  promptValue : String
  composerDisabled : Bool
deriving DecidableEq

/-- `addMessage(text, role)` of `chat.js`: append one bubble. -/
def addMessage (st : ChatState) (text : String) (role : Role) : ChatState :=
  { st with transcript := st.transcript ++ [⟨text, role⟩] }

/-- `setStatus(text, ok)` of `chat.js`. -/
def setStatusC (st : ChatState) (text : String) (ok : Bool) : ChatState :=
  { st with statusText := text, statusOk := ok }

/-- The JSON POST body `{message}` sent to `/api/chat`. -/
structure ChatRequest where
  message : String
deriving DecidableEq

/-- Synchronous prefix of the composer submit handler, up to the `await
fetch`: trim the prompt; an empty result is a silent no-op issuing no
request; otherwise append the user bubble, clear the prompt, show
the thinking status and issue one request. -/
def chatSubmitStart (st : ChatState) : ChatState × Option ChatRequest :=
  let text := jsTrim st.promptValue
  if text = "" then (st, none)
  else
    (setStatusC { addMessage st text .user with promptValue := "" } "Thinking…" true,
     some ⟨text⟩)

/-- Outcome of the `/api/chat` request as the handler observes it: an
HTTP success whose JSON body parsed, carrying the `reply` field (`none`
for absent or null); a non-2xx status with the body text; a rejected
fetch; or an HTTP success whose body failed to parse as JSON (the
un-guarded `response.json()` then throws into the catch). -/
inductive ChatOutcome where
  | success (reply : Option String)
  | httpError (body : String)
  | networkError (message : String)
  | parseError
deriving DecidableEq

/-- The fixed system bubble text of the chat catch block. -/
def offlineMessage : String :=
  "Unable to reach the chat service. Check that the backend is running."

/-- Settle phase of the composer submit handler. On parsed success:
append `payload.reply || "No response received."` as the assistant
bubble and show the connected status. Every other outcome reaches the
catch block: append the fixed offline system bubble and show the
offline status with the error background. -/
def chatSettle (st : ChatState) (o : ChatOutcome) : ChatState :=
  match o with
  | .success reply =>
      setStatusC (addMessage st (jsOrElse reply "No response received.") .assistant)
        "Connected" true
  | _ => setStatusC (addMessage st offlineMessage .system) "Offline" false

/-- The whole composer submit handler: start phase, then, when a
request was issued, the settle phase on its outcome. -/
def chatSubmit (st : ChatState) (o : ChatOutcome) : ChatState :=
  match chatSubmitStart st with
  | (st1, none) => st1
  | (st1, some _) => chatSettle st1 o

/-! ## Document view (`documentView.js` and `documentIdea.js`): pin control
The two files wire an identical pin handler; one model covers both. -/

/-- State of the pin control: the `pinned` flag and the button's
`textContent`. -/
structure PinState where
  pinned : Bool
  label : String
deriving DecidableEq

/-- The label the handler writes for a given `pinned` flag. -/
def pinLabel (pinned : Bool) : String :=
  if pinned then "Unpin Document" else "Pin Document"

/-- The alert text the handler raises for a given `pinned` flag. -/
def pinAlert (pinned : Bool) : String :=
  if pinned then "Document pinned!" else "Document unpinned!"

/-- The pin button click handler: flip `pinned`, rewrite the label from
the new flag, and raise the matching alert (returned alongside). -/
def togglePin (st : PinState) : PinState × String :=
  ({ pinned := !st.pinned, label := pinLabel (!st.pinned) }, pinAlert (!st.pinned))

/-! ## Auth forms (`login-signup.js`, backend-calling variant) -/

/-- `window.localStorage`, as an association list keyed by item name. -/
abbrev Storage := List (String × String)

/-- `localStorage.setItem(key, value)`: bind `key` to `value`,
replacing any previous binding. -/
def setItem (s : Storage) (key value : String) : Storage :=
  (key, value) :: s.filter (fun p => p.1 != key)

/-- `localStorage.getItem(key)`. -/
def getItem (s : Storage) (key : String) : Option String :=
  List.lookup key s

/-- `localStorage.setItem` stringifies its value argument; reading a
field absent from the response object yields `undefined`, which
stringifies to the literal text `"undefined"`. -/
def jsStringOfField (v : Option String) : String :=
  match v with
  | some s => s
  | none => "undefined"

/-- Outcome of a POST issued by `apiPost` as the code observes it: an
HTTP success (body `none` when `res.json()` failed, leaving `data`
null), a non-2xx status with its parsed body, or a rejected fetch. -/
inductive AuthOutcome where
  | success (body : Option JsObj)
  | httpError (status : Nat) (body : Option JsObj)
  | networkError (message : String)
deriving DecidableEq

/-- The generic failure message `apiPost` builds from the status code. -/
def requestFailedMsg (status : Nat) : String :=
  "Request failed (" ++ toString status ++ ")"

/-- `apiPost(path, body)` after the fetch settles: returns the parsed
data on success, otherwise throws
`(data && (data.detail || data.message)) || "Request failed (status)"`
(for a non-2xx status) or the fetch rejection itself. -/
def apiPost (o : AuthOutcome) : Except String (Option JsObj) :=
  match o with
  | .success body => .ok body
  | .httpError status body =>
      .error (jsOrElse
        (match body with
         | some obj => jsOrElseOpt (List.lookup "detail" obj) (List.lookup "message" obj)
         | none => none)
        (requestFailedMsg status))
  | .networkError m => .error m

/-- What the login form shows and schedules after the handler settles:
the inline `.api-message` (text, isError) and any scheduled navigation
target. -/
structure AuthView where
  messageShown : Option (String × Bool)
  navigateTo : Option String
deriving DecidableEq

/-- The engine-specific TypeError raised by reading `.access_token` off
a null `data`; its exact text is not fixed by the source. -/
def nullDataErrorMsg : String :=
  "TypeError: data is null"

/-- Settle phase of the login submit handler: on success, store the
token fields in localStorage, show the success message (or the
server-provided one) and schedule navigation to the dashboard; on a
thrown error, show it inline and do not navigate. A success whose body
failed to parse leaves `data` null, so the first `localStorage.setItem`
argument expression throws into the same catch before any store write. -/
def loginSettle (store : Storage) (o : AuthOutcome) : Storage × AuthView :=
  match apiPost o with
  | .error msg => (store, { messageShown := some (msg, true), navigateTo := none })
  | .ok none => (store, { messageShown := some (nullDataErrorMsg, true), navigateTo := none })
  | .ok (some data) =>
      let s1 := setItem store "access_token" (jsStringOfField (List.lookup "access_token" data))
      let s2 := setItem s1 "token_type" (jsStringOfField (List.lookup "token_type" data))
      (s2,
       { messageShown := some (jsOrElse (List.lookup "message" data) "Login successful", false),
         navigateTo := some "dashboard.html" })

/-- Controls-track-queue invariant of the landing page: the ingest and
clear buttons are enabled exactly when the pending queue is non-empty. -/
def controlsMatchQueue (st : LandingState) : Prop :=
  st.ingestDisabled = st.files.isEmpty ∧ st.clearDisabled = st.files.isEmpty

/-! ## Helper lemmas -/

theorem setStatusL_files (st : LandingState) (t m : String) :
    (setStatusL st t m).files = st.files := rfl

theorem refreshList_files (st : LandingState) :
    (refreshList st).files = st.files := by
  unfold refreshList
  split <;> rfl

theorem refreshList_controls (st : LandingState) :
    controlsMatchQueue (refreshList st) := by
  unfold refreshList controlsMatchQueue
  split <;> simp_all

theorem controlsMatchQueue_setStatusL (st : LandingState) (t m : String) :
    controlsMatchQueue (setStatusL st t m) ↔ controlsMatchQueue st := Iff.rfl

/-! ## Claims -/

/-- Claim C1: for every list of candidate files passed to `addFiles`,
the files appended to the pending queue are exactly those whose
lower-cased name ends in one of `.md`, `.markdown`, `.txt`, `.rst`
(the predicate `isAllowedFile`), appended in their input order: the new
queue is the old queue followed by the filtered input. -/
theorem C1_addFiles_filters_and_preserves_order (st : LandingState) (incoming : List FileH) :
    (addFiles st incoming).files = st.files ++ incoming.filter isAllowedFile := by
  unfold addFiles
  dsimp only
  split
  · next h => simp [setStatusL_files, List.isEmpty_iff.mp h]
  · rw [setStatusL_files, refreshList_files]

/-- Claim C3: after the upload request settles, the pending queue is
empty exactly on the HTTP-success path (untouched otherwise), and the
ingest control ends up re-enabled exactly on the failure paths (non-2xx
status or network error) — on success it stays disabled. -/
theorem C3_upload_settle_queue_and_control (st : LandingState) (o : IngestOutcome) :
    ((ingestSettle st o).files = cond o.isFailure st.files []) ∧
    ((ingestSettle st o).ingestDisabled = !o.isFailure) := by
  cases o <;>
    simp [ingestSettle, ingestCatch, setStatusL, refreshList, IngestOutcome.isFailure]

/-- Claim C4: when zero candidates pass the extension filter,
`addFiles` only writes the rejection status message: the resulting
state is the input state with the status replaced, so the pending queue
is exactly as it was. -/
theorem C4_addFiles_reject_leaves_queue (st : LandingState) (incoming : List FileH)
    (h : incoming.filter isAllowedFile = []) :
    addFiles st incoming =
      setStatusL st "No supported files"
        "Please upload .md, .markdown, .txt, or .rst files." ∧
    (addFiles st incoming).files = st.files := by
  have h1 : addFiles st incoming =
      setStatusL st "No supported files"
        "Please upload .md, .markdown, .txt, or .rst files." := by
    unfold addFiles
    simp [h]
  exact ⟨h1, by rw [h1, setStatusL_files]⟩

/-- Witness for C4 at a concrete input: a single `.pdf` candidate is
rejected and the queued `.md` file stays queued. -/
theorem C4_witness :
    ([⟨"slides.pdf", 9⟩] : List FileH).filter isAllowedFile = [] ∧
    (addFiles ⟨[⟨"notes.md", 5⟩], .rows [⟨"notes.md", 5⟩], false, false, ⟨"Ready", ""⟩⟩
        [⟨"slides.pdf", 9⟩] =
      setStatusL ⟨[⟨"notes.md", 5⟩], .rows [⟨"notes.md", 5⟩], false, false, ⟨"Ready", ""⟩⟩
        "No supported files" "Please upload .md, .markdown, .txt, or .rst files." ∧
     (addFiles ⟨[⟨"notes.md", 5⟩], .rows [⟨"notes.md", 5⟩], false, false, ⟨"Ready", ""⟩⟩
        [⟨"slides.pdf", 9⟩]).files = [⟨"notes.md", 5⟩]) :=
  ⟨by decide, C4_addFiles_reject_leaves_queue _ _ (by decide)⟩

/-- Claim C5: a chat submission whose prompt is empty or whitespace
only is a no-op: the whole handler leaves the page state untouched (in
particular no bubble of any role is appended) and no request is
issued. -/
theorem C5_blank_prompt_is_noop (st : ChatState) (o : ChatOutcome)
    (h : jsTrim st.promptValue = "") :
    chatSubmit st o = st ∧ (chatSubmitStart st).2 = none := by
  unfold chatSubmit chatSubmitStart
  simp [h]

/-- Witness for C5 at a concrete input: a prompt of three spaces. -/
theorem C5_witness :
    jsTrim "   " = "" ∧
    (chatSubmit ⟨[], "Connected", true, "   ", false⟩ ChatOutcome.parseError =
        ⟨[], "Connected", true, "   ", false⟩ ∧
      (chatSubmitStart ⟨[], "Connected", true, "   ", false⟩).2 = none) :=
  ⟨by decide, C5_blank_prompt_is_noop _ _ (by decide)⟩

/-- Claim C6: when the chat request fails — the fetch rejects or the
response status is non-2xx — the settle phase appends exactly one
system-role bubble carrying the fixed offline message, and sets the
status pill to the offline text with the error background. -/
theorem C6_chat_failure_appends_offline (st : ChatState) (body msg : String) :
    ((chatSettle st (.httpError body)).transcript
        = st.transcript ++ [⟨offlineMessage, .system⟩]) ∧
    ((chatSettle st (.httpError body)).statusText = "Offline") ∧
    ((chatSettle st (.httpError body)).statusOk = false) ∧
    ((chatSettle st (.networkError msg)).transcript
        = st.transcript ++ [⟨offlineMessage, .system⟩]) ∧
    ((chatSettle st (.networkError msg)).statusText = "Offline") ∧
    ((chatSettle st (.networkError msg)).statusOk = false) := by
  simp [chatSettle, addMessage, setStatusC]

/-- Claim C9: a successful chat response whose `reply` field is the
empty string or absent appends the fixed fallback text as the assistant
bubble, not the empty string. -/
theorem C9_falsy_reply_uses_fallback (st : ChatState) :
    ((chatSettle st (.success none)).transcript
        = st.transcript ++ [⟨"No response received.", .assistant⟩]) ∧
    ((chatSettle st (.success (some ""))).transcript
        = st.transcript ++ [⟨"No response received.", .assistant⟩]) := by
  simp [chatSettle, addMessage, setStatusC, jsOrElse]

/-- Claim C10: after each operation that rebuilds the file list view —
adding files with at least one survivor, clearing the queue, and the
success path of the upload — the ingest and clear controls are enabled
exactly when the pending queue is non-empty. -/
theorem C10_controls_track_queue (st : LandingState) (incoming : List FileH)
    (o : IngestOutcome) (hadd : incoming.filter isAllowedFile ≠ [])
    (hok : o.isFailure = false) :
    controlsMatchQueue (addFiles st incoming) ∧
    controlsMatchQueue (clearClick st) ∧
    controlsMatchQueue (ingestSettle st o) := by
  refine ⟨?_, ?_, ?_⟩
  · unfold addFiles
    dsimp only
    rw [if_neg (by simp [hadd])]
    exact (controlsMatchQueue_setStatusL _ _ _).mpr (refreshList_controls _)
  · exact (controlsMatchQueue_setStatusL _ _ _).mpr (refreshList_controls _)
  · cases o with
    | success payload =>
        exact (controlsMatchQueue_setStatusL _ _ _).mpr (refreshList_controls _)
    | httpError body => simp [IngestOutcome.isFailure] at hok
    | networkError m => simp [IngestOutcome.isFailure] at hok

/-- Witness for C10 at a concrete input: one `.md` candidate, an empty
starting queue, and a successful upload outcome. -/
theorem C10_witness :
    ([⟨"a.md", 1⟩] : List FileH).filter isAllowedFile ≠ [] ∧
    (IngestOutcome.success []).isFailure = false ∧
    (controlsMatchQueue
        (addFiles ⟨[], .emptyPlaceholder, true, true, ⟨"", ""⟩⟩ [⟨"a.md", 1⟩]) ∧
      controlsMatchQueue (clearClick ⟨[], .emptyPlaceholder, true, true, ⟨"", ""⟩⟩) ∧
      controlsMatchQueue
        (ingestSettle ⟨[], .emptyPlaceholder, true, true, ⟨"", ""⟩⟩ (.success []))) :=
  ⟨by decide, by decide, C10_controls_track_queue _ _ _ (by decide) (by decide)⟩

/-- Claim C2 is false as stated: it asserts that the chat handler,
like the upload handler, disables its trigger control when a request
starts. At this concrete chat state the composer handler issues a
request while leaving its control enabled, and a second submit (with a
new prompt) issues a second request before the first has settled, so
two chat requests can be in flight at once. -/
theorem C2_counterexample :
    ((chatSubmitStart ⟨[], "", true, "hi", false⟩).2.isSome = true) ∧
    ((chatSubmitStart ⟨[], "", true, "hi", false⟩).1.composerDisabled = false) ∧
    ((chatSubmitStart
        { (chatSubmitStart ⟨[], "", true, "hi", false⟩).1 with
          promptValue := "again" }).2.isSome = true) := by
  decide

/-- Claim C2, amended: only the upload handler guards against
concurrent submission. Whenever an upload request starts through the
ingest button, the button is disabled at the moment the request is in
flight and a further click issues no second request until the first
settles; the chat handler, by contrast, never changes the disabled
state of its trigger control (so, as for the auth forms, a rapid
double-submit can put two chat requests in flight). -/
theorem C2_upload_guards_chat_does_not (st : LandingState) (cst : ChatState)
    (h : (ingestClickIfEnabled st).2.isSome = true) :
    ((ingestClickIfEnabled st).1.ingestDisabled = true) ∧
    (ingestClickIfEnabled (ingestClickIfEnabled st).1
        = ((ingestClickIfEnabled st).1, none)) ∧
    ((chatSubmitStart cst).1.composerDisabled = cst.composerDisabled) := by
  have hchat : (chatSubmitStart cst).1.composerDisabled = cst.composerDisabled := by
    unfold chatSubmitStart
    dsimp only
    split
    · rfl
    · rfl
  unfold ingestClickIfEnabled at h ⊢
  by_cases hd : st.ingestDisabled = true
  · simp [hd] at h
  · rw [if_neg hd] at h ⊢
    unfold ingestClickStart at h ⊢
    by_cases he : st.files.isEmpty = true
    · simp [he] at h
    · rw [if_neg he]
      exact ⟨rfl, rfl, hchat⟩

/-- Witness for the amended C2 at a concrete input: a landing state
with one queued file and an enabled ingest button, and a chat state
with prompt `"hi"`. -/
theorem C2_witness :
    ((ingestClickIfEnabled ⟨[⟨"a.md", 1⟩], .rows [⟨"a.md", 1⟩], false, false,
        ⟨"", ""⟩⟩).2.isSome = true) ∧
    (((ingestClickIfEnabled ⟨[⟨"a.md", 1⟩], .rows [⟨"a.md", 1⟩], false, false,
          ⟨"", ""⟩⟩).1.ingestDisabled = true) ∧
      (ingestClickIfEnabled
          (ingestClickIfEnabled ⟨[⟨"a.md", 1⟩], .rows [⟨"a.md", 1⟩], false, false,
            ⟨"", ""⟩⟩).1
        = ((ingestClickIfEnabled ⟨[⟨"a.md", 1⟩], .rows [⟨"a.md", 1⟩], false, false,
            ⟨"", ""⟩⟩).1, none)) ∧
      ((chatSubmitStart ⟨[], "", true, "hi", false⟩).1.composerDisabled = false)) :=
  ⟨by decide, C2_upload_guards_chat_does_not _ _ (by decide)⟩

/-- Lookup in a storage list is unchanged by filtering out a different
key (helper for the `setItem` lemmas). -/
theorem lookup_filter_other (s : Storage) (k key : String) (h : k ≠ key) :
    List.lookup k (s.filter (fun p => p.1 != key)) = List.lookup k s := by
  induction s with
  | nil => rfl
  | cons a t ih =>
    obtain ⟨k1, v1⟩ := a
    by_cases hk : k1 = key
    · subst hk
      have hne : (k == k1) = false := beq_false_of_ne h
      simp [List.lookup, hne, ih]
    · have hkeep : (k1 != key) = true := by simp [hk]
      by_cases hkk : k = k1
      · subst hkk
        simp [List.lookup, hkeep]
      · have hne : (k == k1) = false := beq_false_of_ne hkk
        simp [List.lookup, hkeep, hne, ih]

/-- Reading back the key just written by `setItem`. -/
theorem getItem_setItem_self (s : Storage) (key v : String) :
    getItem (setItem s key v) key = some v := by
  simp [getItem, setItem, List.lookup]

/-- `setItem` leaves every other key unchanged. -/
theorem getItem_setItem_other (s : Storage) (key k v : String) (h : k ≠ key) :
    getItem (setItem s key v) k = getItem s k := by
  have hne : (k == key) = false := beq_false_of_ne h
  simp [getItem, setItem, List.lookup, hne]
  exact lookup_filter_other s k key h

/-- Claim C7: a login submission whose response is an HTTP success with
a JSON body carrying `access_token` and `token_type` writes both values
to localStorage under those same keys. -/
theorem C7_login_stores_tokens (store : Storage) (data : JsObj) (a t : String)
    (ha : List.lookup "access_token" data = some a)
    (ht : List.lookup "token_type" data = some t) :
    getItem (loginSettle store (.success (some data))).1 "access_token" = some a ∧
    getItem (loginSettle store (.success (some data))).1 "token_type" = some t := by
  unfold loginSettle apiPost
  dsimp only
  constructor
  · rw [getItem_setItem_other _ _ _ _ (by decide), getItem_setItem_self, ha]
    rfl
  · rw [getItem_setItem_self, ht]
    rfl

/-- Witness for C7 at a concrete input: the response body
`{access_token: "abc", token_type: "bearer"}` and an empty storage. -/
theorem C7_witness :
    List.lookup "access_token" [("access_token", "abc"), ("token_type", "bearer")]
        = some "abc" ∧
    List.lookup "token_type" [("access_token", "abc"), ("token_type", "bearer")]
        = some "bearer" ∧
    (getItem (loginSettle []
          (.success (some [("access_token", "abc"), ("token_type", "bearer")]))).1
        "access_token" = some "abc" ∧
      getItem (loginSettle []
          (.success (some [("access_token", "abc"), ("token_type", "bearer")]))).1
        "token_type" = some "bearer") :=
  ⟨by decide, by decide, C7_login_stores_tokens [] _ "abc" "bearer" (by decide) (by decide)⟩

/-- Claim C8 is false as stated over every starting state of the pin
control: from a state whose button label is not one the toggle itself
writes (here `"Keep"`, with the flag unpinned), two toggles end with
the label `"Pin Document"`, not the original text. -/
theorem C8_counterexample :
    ((togglePin (togglePin ⟨false, "Keep"⟩).1).1.label = "Pin Document") ∧
    ¬ ((togglePin (togglePin ⟨false, "Keep"⟩).1).1.label = "Keep") := by
  decide

/-- Claim C8, amended: for every starting state of the pin control
whose button label agrees with the pinned flag — which holds for every
state the toggle itself produces — applying the pin toggle twice
returns the control, and in particular the button label, to exactly its
state before the first toggle. -/
theorem C8_double_toggle_restores_label (st : PinState)
    (h : st.label = pinLabel st.pinned) :
    (togglePin (togglePin st).1).1 = st := by
  obtain ⟨p, l⟩ := st
  cases p <;> simp_all [togglePin, pinLabel]

/-- Witness for the amended C8 at a concrete input: the unpinned state
with its canonical label. -/
theorem C8_witness :
    (PinState.mk false "Pin Document").label = pinLabel false ∧
    (togglePin (togglePin ⟨false, "Pin Document"⟩).1).1
        = PinState.mk false "Pin Document" :=
  ⟨by decide, C8_double_toggle_restores_label _ (by decide)⟩

end DocSpace
